import Mathlib

/-!
Verification of the lyricbar lyrics-resolution pipeline (src/utils.cpp).

The development shallowly embeds the C++ source: strings are Lean strings,
the filesystem is an explicit world passed through the functions, host
(deadbeef / glib) calls are fields of explicit environment structures, and
side effects (UI pushes, cache writes, subprocess spawns, log lines) are
recorded as explicit event traces.
-/

/-- The character substitution performed by std replace over the whole
string: every path separator becomes an underscore. -/
def sanitizeChar (c : Char) : Char :=
  if c = '/' then '_' else c

/-- In-place std replace of every slash by an underscore, as applied to
the artist and title copies inside cached_filename. -/
def sanitize (s : String) : String :=
  ⟨s.data.map sanitizeChar⟩

/-- Embeds cached_filename (utils.cpp line 32): replaces every slash in the
artist and the title by an underscore, then returns
lyrics_dir + artist + '-' + title.  The lyrics directory (a global computed
from environment variables in the source) is passed as the parameter dir. -/
def cached_filename (dir artist title : String) : String :=
  dir ++ sanitize artist ++ "-" ++ sanitize title

theorem data_append (s t : String) : (s ++ t).data = s.data ++ t.data := rfl

theorem sanitizeChar_ne_slash (c : Char) : sanitizeChar c ≠ '/' := by
  unfold sanitizeChar
  split
  · decide
  · assumption

theorem slash_not_mem_sanitize (s : String) : '/' ∉ (sanitize s).data := by
  unfold sanitize
  intro h
  rcases List.mem_map.mp h with ⟨c, _, hc⟩
  exact sanitizeChar_ne_slash c hc

/-- Claim C1: cached_filename is the lyrics directory followed by the key
obtained by replacing every slash in artist and title with an underscore and
concatenating artist, a dash, and title; that key part contains no slash,
for all inputs including ones that contain slashes. -/
theorem claim_C1_cached_filename_key_no_slash (dir artist title : String) :
    ∃ key : String,
      cached_filename dir artist title = dir ++ key ∧
      key = sanitize artist ++ "-" ++ sanitize title ∧
      '/' ∉ key.data := by
  refine ⟨sanitize artist ++ "-" ++ sanitize title, ?_, rfl, ?_⟩
  · unfold cached_filename
    simp [String.append_assoc]
  · intro h
    rw [data_append, data_append] at h
    rcases List.mem_append.mp h with h1 | h2
    · rcases List.mem_append.mp h1 with ha | hd
      · exact slash_not_mem_sanitize artist ha
      · simp at hd
    · exact slash_not_mem_sanitize title h2

/-- The filesystem world the cache functions act on.  files maps a path to
the content of an existing readable file (none when absent).  canOpen and
writeOk model the two failure points of save_cached_lyrics: whether the
ofstream constructor succeeds at a path, and whether the stream insertion
that follows succeeds (disk full and similar). -/
structure FSWorld where
  files : String → Option String
  canOpen : String → Bool
  writeOk : String → Bool

/-- Functional update of one file in the world. -/
def FSWorld.withFile (fs : FSWorld) (fn content : String) : FSWorld :=
  { fs with files := fun f => if f = fn then some content else fs.files f }

/-- Embeds is_cached (utils.cpp line 40): the artist and title pointers may
be null (modelled as Option), the conjunction short-circuits, and access
with mode 0 checks the derived file exists. -/
def is_cached (dir : String) (artist title : Option String) (fs : FSWorld) :
    Bool :=
  match artist, title with
  | some a, some t => (fs.files (cached_filename dir a t)).isSome
  | _, _ => false

/-- Embeds load_cached_lyrics (utils.cpp line 55): file_get_contents of the
derived path; a FileError (missing or unreadable file) is caught and yields
an empty optional. -/
def load_cached_lyrics (dir artist title : String) (fs : FSWorld) :
    Option String :=
  fs.files (cached_filename dir artist title)

/-- Embeds save_cached_lyrics (utils.cpp line 66): constructs an ofstream on
the derived path (truncating on open), returns false when the open fails,
otherwise inserts the lyrics and returns true with no check of the write
outcome.  A failed insertion leaves the truncated (empty) file behind. -/
def save_cached_lyrics (dir artist title lyrics : String) (fs : FSWorld) :
    Bool × FSWorld :=
  let filename := cached_filename dir artist title
  if fs.canOpen filename then
    if fs.writeOk filename then
      (true, fs.withFile filename lyrics)
    else
      (true, fs.withFile filename "")
  else
    (false, fs)

/-- A concrete world in which exactly one file exists: the one derived from
an empty artist and the title T. -/
def w_emptyArtist : FSWorld :=
  { files := fun f => if f = cached_filename "cache/" "" "T" then some "hi" else none
    canOpen := fun _ => true
    writeOk := fun _ => true }

/-- Claim C4 counterexample: the claim demands that an empty (but present)
artist yields false, yet is_cached answers true for the empty artist once a
file exists at the derived path, because the source checks only that the
pointers are non-null.  The claimed equivalence fails at this input. -/
theorem claim_C4_counterexample :
    ¬ (is_cached "cache/" (some "") (some "T") w_emptyArtist = true ↔
        ("" : String) ≠ "" ∧ ("T" : String) ≠ "" ∧
        (w_emptyArtist.files (cached_filename "cache/" "" "T")).isSome = true) := by
  decide

/-- Claim C4 as amended: is_cached is true exactly when both the artist and
the title pointers are non-null and a file exists at the derived path; a
null on either side yields false, but empty strings are accepted as
present.  The function is total, so it never throws. -/
theorem claim_C4_is_cached_iff (dir : String) (artist title : Option String)
    (fs : FSWorld) :
    is_cached dir artist title fs = true ↔
      ∃ a t, artist = some a ∧ title = some t ∧
        (fs.files (cached_filename dir a t)).isSome = true := by
  cases artist with
  | none => simp [is_cached]
  | some a =>
    cases title with
    | none => simp [is_cached]
    | some t =>
      constructor
      · intro h
        exact ⟨a, t, rfl, rfl, h⟩
      · rintro ⟨a', t', ha, ht, h⟩
        cases ha
        cases ht
        exact h

/-- Claim C10: when either pointer is null, is_cached is false for every
filesystem world, in particular for worlds where every file exists, so the
null argument is never dereferenced and no filesystem check happens. -/
theorem claim_C10_is_cached_null (dir : String) (artist title : Option String)
    (fs : FSWorld) (h : artist = none ∨ title = none) :
    is_cached dir artist title fs = false := by
  rcases h with h | h
  · subst h; rfl
  · subst h; cases artist <;> rfl

/-- Claim C10 witness: a null artist with a world in which every path
exists still answers false. -/
theorem claim_C10_witness :
    is_cached "cache/" none (some "T")
      { files := fun _ => some "x", canOpen := fun _ => true,
        writeOk := fun _ => true } = false :=
  claim_C10_is_cached_null "cache/" none (some "T") _ (Or.inl rfl)

/-- A concrete world in which every path opens but no write succeeds. -/
def w_writeFails : FSWorld :=
  { files := fun _ => none
    canOpen := fun _ => true
    writeOk := fun _ => false }

/-- Claim C5 counterexample: at a path whose open succeeds but whose write
fails, save_cached_lyrics still returns true — the source never checks the
stream after the insertion — and the file is left truncated rather than
holding the lyrics, so the claimed false-on-write-failure is violated. -/
theorem claim_C5_counterexample :
    w_writeFails.canOpen (cached_filename "cache/" "a" "t") = true ∧
    w_writeFails.writeOk (cached_filename "cache/" "a" "t") = false ∧
    (save_cached_lyrics "cache/" "a" "t" "L" w_writeFails).1 = true ∧
    ((save_cached_lyrics "cache/" "a" "t" "L" w_writeFails).2).files
        (cached_filename "cache/" "a" "t") ≠ some "L" := by
  decide

/-- Claim C5 as amended: save_cached_lyrics returns false exactly when the
open fails, and on an open failure nothing is written, so an existing entry
is untouched; when the open succeeds it returns true even if the write that
follows fails, because the write outcome is never checked. -/
theorem claim_C5_save_open_failure (dir artist title lyrics : String)
    (fs : FSWorld) :
    ((save_cached_lyrics dir artist title lyrics fs).1
        = fs.canOpen (cached_filename dir artist title)) ∧
    (fs.canOpen (cached_filename dir artist title) = false →
      (save_cached_lyrics dir artist title lyrics fs).2 = fs) := by
  constructor
  · by_cases h : fs.canOpen (cached_filename dir artist title) = true
    · by_cases hw : fs.writeOk (cached_filename dir artist title) = true
      · simp [save_cached_lyrics, h, hw]
      · simp [save_cached_lyrics, h, Bool.eq_false_iff.mpr hw]
    · simp [save_cached_lyrics, Bool.eq_false_iff.mpr h]
  · intro h
    simp [save_cached_lyrics, h]

/-- Claim C5 witness: at a path that does not open, the call reports false
and the world is unchanged. -/
theorem claim_C5_witness :
    ((save_cached_lyrics "cache/" "a" "t" "L"
        { files := fun _ => some "old", canOpen := fun _ => false,
          writeOk := fun _ => true }).1 = false) ∧
    ((save_cached_lyrics "cache/" "a" "t" "L"
        { files := fun _ => some "old", canOpen := fun _ => false,
          writeOk := fun _ => true }).2
      = { files := fun _ => some "old", canOpen := fun _ => false,
          writeOk := fun _ => true }) := by
  have h := claim_C5_save_open_failure "cache/" "a" "t" "L"
    { files := fun _ => some "old", canOpen := fun _ => false,
      writeOk := fun _ => true }
  exact ⟨h.1, h.2 rfl⟩

/-- Claim C6: at a path that opens and writes normally, save_cached_lyrics
followed by load_cached_lyrics on the same identity returns exactly the
text that was stored. -/
theorem claim_C6_put_get_roundtrip (dir artist title text : String)
    (fs : FSWorld)
    (hOpen : fs.canOpen (cached_filename dir artist title) = true)
    (hWrite : fs.writeOk (cached_filename dir artist title) = true) :
    load_cached_lyrics dir artist title
      (save_cached_lyrics dir artist title text fs).2 = some text := by
  simp [save_cached_lyrics, load_cached_lyrics, hOpen, hWrite, FSWorld.withFile]

/-- Claim C6 witness: a concrete round trip through an initially empty,
fully functional world. -/
theorem claim_C6_witness :
    load_cached_lyrics "cache/" "AC/DC" "T.N.T"
      (save_cached_lyrics "cache/" "AC/DC" "T.N.T" "Hello"
        { files := fun _ => none, canOpen := fun _ => true,
          writeOk := fun _ => true }).2 = some "Hello" :=
  claim_C6_put_get_roundtrip "cache/" "AC/DC" "T.N.T" "Hello"
    { files := fun _ => none, canOpen := fun _ => true,
      writeOk := fun _ => true } rfl rfl

/-- A track as seen by the core: pl_find_meta by exact field name, null
when the field is absent (the value itself may be the empty string). -/
structure Track where
  meta : String → Option String

/-- Observable steps of the script provider: a template handed to
tf_compile, a command line handed to spawn_command_line_sync, and a line
written to the error stream. -/
inductive ScriptEv where
  | compiled (tmpl : String)
  | spawned (cmd : String)
  | logged (msg : String)
deriving DecidableEq

/-- Outcome of spawn_command_line_sync: a thrown Glib error, or captured
standard output together with the exit status. -/
inductive SpawnOutcome where
  | err (msg : String)
  | ok (output : String) (status : Int)

/-- Host environment of get_lyrics_from_script: the configured command
template, the templating capability (tf_compile success and tf_eval result,
none standing for a negative length), the spawner, and UTF-8 validation as
performed by ustring validate. -/
structure ScriptEnv where
  customcmd : String
  tf_compile_ok : String → Bool
  tf_eval : String → Track → Option String
  spawn : String → SpawnOutcome
  validate : String → Bool

/-- The 4096-byte buffer allocated at utils.cpp line 98 and reused for the
expanded command. -/
def BUFSIZE : Nat := 4096

/-- Modelled from the spec: GetConfigString (deadbeef conf_get_str, an
external collaborator not in src/) copies the configured value into the
caller's fixed buffer as a NUL-terminated C string, so a buffer of n bytes
retains at most n - 1 characters of the value. -/
def readTemplate (env : ScriptEnv) : String :=
  ⟨env.customcmd.data.take (BUFSIZE - 1)⟩

/-- Modelled from the spec: the templating Evaluate capability (deadbeef
tf_eval, an external collaborator not in src/) writes the expansion into
the caller's buffer of the given size, truncating to fit the buffer with
its terminating NUL, and returns the written length, which the source uses
to resize the buffer (utils.cpp line 119).  A negative return is none. -/
def tf_eval_into (env : ScriptEnv) (tmpl : String) (track : Track)
    (bufsize : Nat) : Option String :=
  (env.tf_eval tmpl track).map fun s => ⟨s.data.take (bufsize - 1)⟩

/-- Message printed for a compile or evaluation failure (lines 105, 115). -/
def invalidCmdMsg : String := "lyricbar: Invalid script command!"

/-- Message printed when the script output fails validation (line 136). -/
def utf8Msg : String := "lyricbar: script output is not a valid UTF8 string!"

/-- Embeds get_lyrics_from_script (utils.cpp line 97) with its observable
steps: read the template into the 4096-byte buffer, bail out silently on an
empty template, compile it, evaluate it against the track into the same
buffer, spawn the expanded command synchronously, and accept the captured
output only when the exit status is zero, the output is non-empty and it
validates as UTF-8. -/
def get_lyrics_from_script_ev (env : ScriptEnv) (track : Track) :
    Option String × List ScriptEv :=
  let buf := readTemplate env
  if buf = "" then
    (none, [])
  else if env.tf_compile_ok buf = false then
    (none, [.compiled buf, .logged invalidCmdMsg])
  else
    match tf_eval_into env buf track BUFSIZE with
    | none => (none, [.compiled buf, .logged invalidCmdMsg])
    | some cmd =>
      match env.spawn cmd with
      | .err m =>
        (none, [.compiled buf, .spawned cmd, .logged ("lyricbar: " ++ m)])
      | .ok out status =>
        if out = "" ∨ status ≠ 0 then
          (none, [.compiled buf, .spawned cmd])
        else if env.validate out = false then
          (none, [.compiled buf, .spawned cmd, .logged utf8Msg])
        else
          (some out, [.compiled buf, .spawned cmd])

/-- The value get_lyrics_from_script returns to its caller. -/
def get_lyrics_from_script (env : ScriptEnv) (track : Track) :
    Option String :=
  (get_lyrics_from_script_ev env track).1

theorem tf_eval_into_length {env : ScriptEnv} {tmpl : String} {track : Track}
    {cmd : String} (h : tf_eval_into env tmpl track BUFSIZE = some cmd) :
    cmd.length < BUFSIZE := by
  unfold tf_eval_into at h
  rcases Option.map_eq_some'.mp h with ⟨s, _, hcmd⟩
  rw [← hcmd]
  show (s.data.take (BUFSIZE - 1)).length < BUFSIZE
  rw [List.length_take]
  unfold BUFSIZE
  omega

theorem readTemplate_length (env : ScriptEnv) :
    (readTemplate env).length < BUFSIZE := by
  show (env.customcmd.data.take (BUFSIZE - 1)).length < BUFSIZE
  rw [List.length_take]
  unfold BUFSIZE
  omega

/-- Every event the script provider can emit: the template it compiles is
exactly the buffer-truncated configuration string, and every spawned
command comes out of tf_eval writing into the same buffer. -/
theorem script_ev_shape (env : ScriptEnv) (track : Track) (ev : ScriptEv)
    (h : ev ∈ (get_lyrics_from_script_ev env track).2) :
    ev = ScriptEv.compiled (readTemplate env) ∨
    (∃ cmd, ev = ScriptEv.spawned cmd ∧
      tf_eval_into env (readTemplate env) track BUFSIZE = some cmd) ∨
    (∃ m, ev = ScriptEv.logged m) := by
  simp only [get_lyrics_from_script_ev] at h
  split at h
  · simp at h
  · split at h
    · simp at h
      rcases h with h | h
      · exact Or.inl h
      · exact Or.inr (Or.inr ⟨invalidCmdMsg, h⟩)
    · rename_i heval
      revert h
      split
      · intro h
        simp at h
        rcases h with h | h
        · exact Or.inl h
        · exact Or.inr (Or.inr ⟨invalidCmdMsg, h⟩)
      · rename_i cmd hcmd
        intro h
        revert h
        split
        · rename_i m hm
          intro h
          simp at h
          rcases h with h | h | h
          · exact Or.inl h
          · exact Or.inr (Or.inl ⟨cmd, h, hcmd⟩)
          · exact Or.inr (Or.inr ⟨_, h⟩)
        · rename_i out status hm
          intro h
          revert h
          split
          · intro h
            simp at h
            rcases h with h | h
            · exact Or.inl h
            · exact Or.inr (Or.inl ⟨cmd, h, hcmd⟩)
          · split
            · intro h
              simp at h
              rcases h with h | h | h
              · exact Or.inl h
              · exact Or.inr (Or.inl ⟨cmd, h, hcmd⟩)
              · exact Or.inr (Or.inr ⟨_, h⟩)
            · intro h
              simp at h
              rcases h with h | h
              · exact Or.inl h
              · exact Or.inr (Or.inl ⟨cmd, h, hcmd⟩)

/-- Claim C9: the configuration template reaches tf_compile only after
truncation to the 4096-byte buffer (4095 characters plus the NUL), and
every command line actually spawned is bounded by the same buffer. -/
theorem claim_C9_buffer_bounds (env : ScriptEnv) (track : Track) :
    (∀ tmpl, ScriptEv.compiled tmpl ∈ (get_lyrics_from_script_ev env track).2 →
      tmpl.data = env.customcmd.data.take (BUFSIZE - 1) ∧
      tmpl.length < BUFSIZE) ∧
    (∀ cmd, ScriptEv.spawned cmd ∈ (get_lyrics_from_script_ev env track).2 →
      cmd.length < BUFSIZE) := by
  constructor
  · intro tmpl h
    rcases script_ev_shape env track _ h with h' | ⟨c, h', _⟩ | ⟨m, h'⟩
    · have : tmpl = readTemplate env := by
        injection h' with h''
      subst this
      exact ⟨rfl, readTemplate_length env⟩
    · cases h'
    · cases h'
  · intro cmd h
    rcases script_ev_shape env track _ h with h' | ⟨c, h', hc⟩ | ⟨m, h'⟩
    · cases h'
    · have : cmd = c := by injection h' with h''
      subst this
      exact tf_eval_into_length hc
    · cases h'

/-- A concrete track with no metadata at all. -/
def track_empty : Track := ⟨fun _ => none⟩

/-- A concrete script environment: a short configured command, a templating
capability that succeeds, a spawner that prints hello with status 0, and a
validator that accepts everything. -/
def env_script : ScriptEnv :=
  { customcmd := "echo hi"
    tf_compile_ok := fun _ => true
    tf_eval := fun _ _ => some "echo hi"
    spawn := fun _ => .ok "hello" 0
    validate := fun _ => true }

/-- Claim C9 witness: in the concrete environment the compiled template is
the buffer truncation of the configured command and both bounds hold. -/
theorem claim_C9_witness :
    ("echo hi" : String).data = env_script.customcmd.data.take (BUFSIZE - 1) ∧
    ("echo hi" : String).length < BUFSIZE :=
  (claim_C9_buffer_bounds env_script track_empty).1 "echo hi" (by decide)

/-- The exact outcome of the script provider once the pipeline reaches a
spawn that captures output out with the given exit status. -/
theorem script_ev_spawn_outcome (env : ScriptEnv) (track : Track)
    (cmd out : String) (status : Int)
    (hne : ¬ readTemplate env = "")
    (hc : env.tf_compile_ok (readTemplate env) = true)
    (he : tf_eval_into env (readTemplate env) track BUFSIZE = some cmd)
    (hs : env.spawn cmd = SpawnOutcome.ok out status) :
    get_lyrics_from_script_ev env track =
      if out = "" ∨ status ≠ 0 then
        (none, [.compiled (readTemplate env), .spawned cmd])
      else if env.validate out = false then
        (none, [.compiled (readTemplate env), .spawned cmd, .logged utf8Msg])
      else
        (some out, [.compiled (readTemplate env), .spawned cmd]) := by
  unfold get_lyrics_from_script_ev
  rw [if_neg hne, hc]
  simp only [he, hs]
  simp

/-- Claim C7: with the subprocess outcome captured, the provider returns
the output exactly when the exit status is zero, the output is non-empty
and it validates as UTF-8; any single violation yields none; the encoding
violation is the only rejection among these that logs a diagnostic, and it
logs the dedicated UTF-8 message. -/
theorem claim_C7_script_acceptance (env : ScriptEnv) (track : Track)
    (cmd out : String) (status : Int)
    (hne : ¬ readTemplate env = "")
    (hc : env.tf_compile_ok (readTemplate env) = true)
    (he : tf_eval_into env (readTemplate env) track BUFSIZE = some cmd)
    (hs : env.spawn cmd = SpawnOutcome.ok out status) :
    ((get_lyrics_from_script_ev env track).1 =
      if status = 0 ∧ ¬ out = "" ∧ env.validate out = true then some out
      else none) ∧
    ((status = 0 ∧ ¬ out = "" ∧ env.validate out = false) →
      ScriptEv.logged utf8Msg ∈ (get_lyrics_from_script_ev env track).2) ∧
    ((out = "" ∨ ¬ status = 0) →
      ScriptEv.logged utf8Msg ∉ (get_lyrics_from_script_ev env track).2) := by
  rw [script_ev_spawn_outcome env track cmd out status hne hc he hs]
  refine ⟨?_, ?_, ?_⟩
  · by_cases h0 : out = ""
    · simp [h0]
    · by_cases h1 : status = 0
      · by_cases h2 : env.validate out = true
        · simp [h0, h1, h2]
        · simp [h0, h1, h2, Bool.eq_false_iff.mpr h2]
      · simp [h0, h1]
  · rintro ⟨h1, h0, h2⟩
    simp [h0, h1, h2]
  · rintro (h0 | h1)
    · simp [h0]
    · by_cases h0 : out = ""
      · simp [h0]
      · simp [h0, h1]

/-- A concrete script environment whose spawner captures empty output. -/
def env_script_emptyOut : ScriptEnv :=
  { customcmd := "echo hi"
    tf_compile_ok := fun _ => true
    tf_eval := fun _ _ => some "echo hi"
    spawn := fun _ => .ok "" 0
    validate := fun _ => true }

/-- Claim C7 witness: a run whose spawn returns empty output with status 0
is rejected with no UTF-8 diagnostic, matching the theorem at a concrete
environment whose spawner returns empty output. -/
theorem claim_C7_witness :
    ((get_lyrics_from_script_ev env_script_emptyOut track_empty).1 =
      if (0 : Int) = 0 ∧ ¬ ("" : String) = "" ∧
          env_script_emptyOut.validate "" = true then some "" else none) ∧
    (((0 : Int) = 0 ∧ ¬ ("" : String) = "" ∧
        env_script_emptyOut.validate "" = false) →
      ScriptEv.logged utf8Msg ∈
        (get_lyrics_from_script_ev env_script_emptyOut track_empty).2) ∧
    ((("" : String) = "" ∨ ¬ (0 : Int) = 0) →
      ScriptEv.logged utf8Msg ∉
        (get_lyrics_from_script_ev env_script_emptyOut track_empty).2) :=
  claim_C7_script_acceptance env_script_emptyOut track_empty "echo hi" "" 0
    (by decide) rfl (by decide) rfl

/-- Claim C8: with an empty (or unset, which the host copy leaves empty)
command template, the script provider returns none at once: no compilation,
no subprocess spawn, no diagnostic of any kind — the event trace is empty. -/
theorem claim_C8_disabled (env : ScriptEnv) (track : Track)
    (h : env.customcmd = "") :
    get_lyrics_from_script_ev env track = (none, []) := by
  have hbuf : readTemplate env = "" := by
    unfold readTemplate
    rw [h]
    decide
  simp [get_lyrics_from_script_ev, hbuf]

/-- A concrete environment with the script feature unconfigured. -/
def env_script_off : ScriptEnv :=
  { customcmd := ""
    tf_compile_ok := fun _ => true
    tf_eval := fun _ _ => some "x"
    spawn := fun _ => .ok "y" 0
    validate := fun _ => true }

/-- Claim C8 witness: the unconfigured environment yields none with an
empty event trace. -/
theorem claim_C8_witness :
    get_lyrics_from_script_ev env_script_off track_empty = (none, []) :=
  claim_C8_disabled env_script_off track_empty rfl

/-- Observable steps of update_lyrics: a string pushed to the UI label via
set_lyrics, and a call to save_cached_lyrics with its three arguments. -/
inductive Event where
  | uiPush (text : String)
  | cachePut (artist title lyrics : String)
deriving DecidableEq

/-- The localized transient string pushed at utils.cpp line 164. -/
def loadingText : String := "Loading..."

/-- The localized terminal string pushed at utils.cpp line 175. -/
def notFoundText : String := "Lyrics not found"

/-- Embeds get_lyrics_from_metadata (utils.cpp line 87): the chained
GNU elvis operator keeps the first non-null lookup result, and the value is
returned whenever that pointer is non-null, even for an empty string. -/
def get_lyrics_from_metadata (track : Track) : Option String :=
  ((track.meta "unsynced lyrics").orElse fun _ =>
    (track.meta "UNSYNCEDLYRICS").orElse fun _ =>
      track.meta "lyrics")

/-- The provider loop body of update_lyrics (utils.cpp lines 167 to 173):
the first provider with a present result has its text pushed to the UI and
then written through to the cache; when the loop falls through, control
reaches the final not-found push. -/
def run_providers (dir : String) (provs : List (Track → Option String))
    (track : Track) (artist title : String) (fs : FSWorld) :
    List Event × FSWorld :=
  match provs with
  | [] => ([.uiPush notFoundText], fs)
  | f :: rest =>
    match f track with
    | some l =>
      ([.uiPush l, .cachePut artist title l],
        (save_cached_lyrics dir artist title l fs).2)
    | none => run_providers dir rest track artist title fs

/-- The first present result among the providers, in order. -/
def firstSome (provs : List (Track → Option String)) (track : Track) :
    Option String :=
  match provs with
  | [] => none
  | f :: rest =>
    match f track with
    | some l => some l
    | none => firstSome rest track

/-- Embeds update_lyrics (utils.cpp line 142): metadata first, then the
artist and title pointers are read under the playlist lock, then the cache,
then a transient loading push followed by the provider chain with
write-through, and a final not-found push when everything missed or the
identity is incomplete.  The provider array (a global in the source,
holding exactly get_lyrics_from_script) is the parameter provs. -/
def update_lyrics (dir : String) (provs : List (Track → Option String))
    (track : Track) (fs : FSWorld) : List Event × FSWorld :=
  match get_lyrics_from_metadata track with
  | some lyrics => ([.uiPush lyrics], fs)
  | none =>
    match track.meta "artist", track.meta "title" with
    | some artist, some title =>
      match load_cached_lyrics dir artist title fs with
      | some lyrics => ([.uiPush lyrics], fs)
      | none =>
        let r := run_providers dir provs track artist title fs
        (Event.uiPush loadingText :: r.1, r.2)
    | _, _ => ([.uiPush notFoundText], fs)

/-- The provider array of the source (utils.cpp line 30): exactly the
script provider. -/
def default_providers (env : ScriptEnv) : List (Track → Option String) :=
  [get_lyrics_from_script env]

/-- When the provider chain has a first present result, the loop pushes it,
writes it through, and stops. -/
theorem run_providers_first (dir : String)
    (provs : List (Track → Option String)) (track : Track)
    (artist title : String) (fs : FSWorld) (L : String)
    (hp : firstSome provs track = some L) :
    run_providers dir provs track artist title fs =
      ([Event.uiPush L, Event.cachePut artist title L],
        (save_cached_lyrics dir artist title L fs).2) := by
  induction provs with
  | nil => exact absurd hp (by simp [firstSome])
  | cons f rest ih =>
    cases hf : f track with
    | some l =>
      unfold firstSome at hp
      rw [hf] at hp
      injection hp with h
      subst h
      unfold run_providers
      rw [hf]
    | none =>
      unfold firstSome at hp
      rw [hf] at hp
      unfold run_providers
      rw [hf]
      exact ih hp

/-- Claim C2: once the resolver misses the metadata, has a full identity,
misses the cache and a provider returns L, the trace is the transient
loading push, then the Found push of L, then the cache write of L — the
display strictly precedes the write — and, the filesystem behaving normally
at the derived path, a subsequent load on the same identity returns L. -/
theorem claim_C2_provider_writeback (dir : String)
    (provs : List (Track → Option String)) (track : Track) (fs : FSWorld)
    (A T L : String)
    (hm : get_lyrics_from_metadata track = none)
    (ha : track.meta "artist" = some A)
    (ht : track.meta "title" = some T)
    (hmiss : load_cached_lyrics dir A T fs = none)
    (hp : firstSome provs track = some L)
    (hOpen : fs.canOpen (cached_filename dir A T) = true)
    (hWrite : fs.writeOk (cached_filename dir A T) = true) :
    (update_lyrics dir provs track fs).1 =
      [Event.uiPush loadingText, Event.uiPush L, Event.cachePut A T L] ∧
    load_cached_lyrics dir A T (update_lyrics dir provs track fs).2
      = some L := by
  have hr := run_providers_first dir provs track A T fs L hp
  constructor
  · simp only [update_lyrics, hm, ha, ht, hmiss, hr]
  · simp only [update_lyrics, hm, ha, ht, hmiss, hr]
    simp [save_cached_lyrics, load_cached_lyrics, hOpen, hWrite,
      FSWorld.withFile]

/-- A concrete track carrying only an artist and a title. -/
def track_AT : Track :=
  ⟨fun k => if k = "artist" then some "AC/DC"
    else if k = "title" then some "T.N.T" else none⟩

/-- A concrete empty, fully functional filesystem world. -/
def w_none : FSWorld :=
  { files := fun _ => none
    canOpen := fun _ => true
    writeOk := fun _ => true }

/-- A concrete environment whose script prints Hello with status 0. -/
def env_hello : ScriptEnv :=
  { customcmd := "echo Hello"
    tf_compile_ok := fun _ => true
    tf_eval := fun _ _ => some "echo Hello"
    spawn := fun _ => .ok "Hello" 0
    validate := fun _ => true }

/-- Claim C2 witness: the scenario of the spec — cache miss, no metadata
tag, script echoing Hello — displays loading, then Hello, then caches
Hello, and the cache afterwards holds Hello. -/
theorem claim_C2_witness :
    (update_lyrics "cache/" (default_providers env_hello) track_AT
        w_none).1 =
      [Event.uiPush loadingText, Event.uiPush "Hello",
        Event.cachePut "AC/DC" "T.N.T" "Hello"] ∧
    load_cached_lyrics "cache/" "AC/DC" "T.N.T"
      (update_lyrics "cache/" (default_providers env_hello) track_AT
        w_none).2 = some "Hello" :=
  claim_C2_provider_writeback "cache/" (default_providers env_hello)
    track_AT w_none "AC/DC" "T.N.T" "Hello"
    (by decide) (by decide) (by decide) rfl (by decide) rfl rfl

/-- A concrete track whose first-priority lyrics tag is present but empty
while the lower-priority lyrics tag holds text. -/
def track_emptyTag : Track :=
  ⟨fun k => if k = "unsynced lyrics" then some ""
    else if k = "lyrics" then some "x" else none⟩

/-- Claim C3 counterexample: this track has a recognized lyrics tag with
the non-empty value x, yet the resolver pushes the empty string — the first
non-null tag, not the first non-empty one, wins, because the source elvis
chain tests pointers — so Found is not pushed with that tag's text.  The
no-write part does hold: the trace has no cache write. -/
theorem claim_C3_counterexample :
    track_emptyTag.meta "lyrics" = some "x" ∧ ("x" : String) ≠ "" ∧
    (update_lyrics "cache/" (default_providers env_hello) track_emptyTag
        w_none).1 = [Event.uiPush ""] ∧
    Event.uiPush "x" ∉
      (update_lyrics "cache/" (default_providers env_hello) track_emptyTag
        w_none).1 := by
  decide

/-- Claim C3 as amended: whenever one of the three recognized tags is
present — its value may even be empty — the resolver pushes the value of
the first present tag in priority order and terminates at once: the cache
is neither read nor written, the world is returned unchanged, and the trace
holds no cache write, whatever the prior cache state. -/
theorem claim_C3_metadata_hit (dir : String)
    (provs : List (Track → Option String)) (track : Track) (fs : FSWorld)
    (L : String) (h : get_lyrics_from_metadata track = some L) :
    update_lyrics dir provs track fs = ([Event.uiPush L], fs) := by
  simp only [update_lyrics, h]

/-- Claim C3 witness: a track with a non-empty unsynced lyrics tag pushes
exactly that text and leaves the world untouched. -/
theorem claim_C3_witness :
    update_lyrics "cache/" (default_providers env_hello)
      ⟨fun k => if k = "unsynced lyrics" then some "la la" else none⟩
      w_emptyArtist = ([Event.uiPush "la la"], w_emptyArtist) :=
  claim_C3_metadata_hit "cache/" (default_providers env_hello)
    ⟨fun k => if k = "unsynced lyrics" then some "la la" else none⟩
    w_emptyArtist "la la" (by decide)
